import Mathlib

/-!
Verification development for the majordomo backend (household gamified chore
tracker).  The Python source under `backend/app` is shallowly embedded:

* timestamps are modelled at minute precision — a UTC instant is an `Int`
  number of minutes, and a Python `datetime` value manipulated by the schedule
  calculator is a `PDateTime` record (year, month, day, hour, minute) in the
  proleptic Gregorian calendar (Python `datetime` supports years from 1;
  0001-01-01 is a Monday, and `weekday()` numbers Monday as 0);
* the database session is a pure `AppState` record threaded explicitly, and a
  request handler returns the committed state together with an
  `Except ApiError` outcome — an `error` outcome means the transaction had no
  committed writes;
* Python runtime failures (`TypeError`, `ValueError`, `AttributeError`,
  `HTTPException`) are constructors of `ApiError`;
* `float` arithmetic of the reward pipeline is modelled over `ℚ`; Python
  `int()` truncation toward zero is `pyInt`;
* `random.choice(candidates)` is modelled by an ambient index `pick`, the
  element taken being `candidates[pick % len(candidates)]`;
* the JSON text stored in `quest_template.schedule` is modelled by its parse
  result (`StoredSchedule`): either a malformed document or a record of the
  keys the scheduler reads.
-/

namespace Majordomo

/-- Runtime and HTTP failures surfaced by the embedded handlers. -/
inductive ApiError where
  | http (status : Nat) (code : String)
  | typeError (msg : String)
  | valueError (msg : String)
  | attributeError (msg : String)
  | indexError (msg : String)
deriving DecidableEq, Repr

instance {ε α : Type _} [DecidableEq ε] [DecidableEq α] : DecidableEq (Except ε α) := fun x y =>
  match x, y with
  | Except.error e₁, Except.error e₂ =>
    match decEq e₁ e₂ with
    | isTrue h => isTrue (congrArg Except.error h)
    | isFalse h => isFalse (fun hh => h (by cases hh; rfl))
  | Except.error _, Except.ok _ => isFalse (fun hh => by cases hh)
  | Except.ok _, Except.error _ => isFalse (fun hh => by cases hh)
  | Except.ok a, Except.ok b =>
    match decEq a b with
    | isTrue h => isTrue (congrArg Except.ok h)
    | isFalse h => isFalse (fun hh => h (by cases hh; rfl))

/-- Python `int()` on a rational: truncation toward zero. -/
def pyInt (q : ℚ) : Int := if 0 ≤ q then ⌊q⌋ else ⌈q⌉

/-- Model of Python `str.split(sep)` on a single-character separator,
working on the character list of the string. -/
def splitOnCharAux (sep : Char) : List Char → List Char → List (List Char)
  | [], acc => [acc.reverse]
  | c :: rest, acc =>
    if c = sep then acc.reverse :: splitOnCharAux sep rest []
    else splitOnCharAux sep rest (c :: acc)

/-- Model of Python `"x:y".split(":")`. -/
def splitOnChar (sep : Char) (cs : List Char) : List (List Char) :=
  splitOnCharAux sep cs []

/-- Digit-string to number; `none` models the `ValueError` raised by
Python `int()` on a non-numeric string. -/
def digitsToNat : List Char → Option Nat
  | [] => none
  | cs => cs.foldl (fun acc c =>
      match acc with
      | none => none
      | some n => if c.isDigit then some (n * 10 + (c.toNat - 48)) else none) (some 0)

/-- Model of Python `int(s)` for the decimal strings the scheduler meets. -/
def pyToInt (cs : List Char) : Option Int :=
  match cs with
  | '-' :: rest => (digitsToNat rest).map (fun n => -(n : Int))
  | '+' :: rest => (digitsToNat rest).map (fun n => (n : Int))
  | _ => (digitsToNat cs).map (fun n => (n : Int))

/-- Model of Python `str.lower()`. -/
def pyLower (s : String) : String := ⟨s.data.map Char.toLower⟩

/-! ## Calendar model (proleptic Gregorian, as Python `datetime`) -/

/-- Gregorian leap-year rule. -/
def isLeap (y : Nat) : Bool := (y % 4 == 0 && y % 100 != 0) || (y % 400 == 0)

/-- Length of month `m` (1-12) of year `y`; `calendar.monthrange(y, m)[1]`. -/
def daysInMonth (y : Nat) (m : Nat) : Nat :=
  match m with
  | 1 => 31
  | 2 => if isLeap y then 29 else 28
  | 3 => 31
  | 4 => 30
  | 5 => 31
  | 6 => 30
  | 7 => 31
  | 8 => 31
  | 9 => 30
  | 10 => 31
  | 11 => 30
  | 12 => 31
  | _ => 0

/-- Days contained in months `1..m` of year `y`. -/
def daysBeforeMonth (y : Nat) : Nat → Nat
  | 0 => 0
  | m + 1 => daysBeforeMonth y m + daysInMonth y (m + 1)

/-- Length of year `y` in days: the days of its twelve months
(365, or 366 in a leap year). -/
def daysInYear (y : Nat) : Nat := daysBeforeMonth y 12

/-- Days strictly before year `y` counted from 0001-01-01. -/
def daysBeforeYear : Nat → Nat
  | 0 => 0
  | 1 => 0
  | (y + 2) => daysBeforeYear (y + 1) + daysInYear (y + 1)

/-- Python `datetime` at minute precision (the scheduler always zeroes
seconds and microseconds on the values it produces). -/
structure PDateTime where
  year : Nat
  month : Nat
  day : Nat
  hour : Nat
  minute : Nat
deriving DecidableEq, Repr

/-- Day ordinal of a date, 0001-01-01 being day 0. -/
def toDays (t : PDateTime) : Nat :=
  daysBeforeYear t.year + daysBeforeMonth t.year (t.month - 1) + (t.day - 1)

/-- Minute ordinal of an instant; Python `datetime` comparisons and
`timedelta` subtractions are comparisons and differences of this value. -/
def toMin (t : PDateTime) : Int :=
  (toDays t : Int) * 1440 + (t.hour : Int) * 60 + (t.minute : Int)

/-- Python `datetime.weekday()`: Monday is 0. 0001-01-01 is a Monday. -/
def weekday (t : PDateTime) : Nat := toDays t % 7

/-- Python `datetime.date()` as a triple for equality tests. -/
def PDateTime.date (t : PDateTime) : Nat × Nat × Nat := (t.year, t.month, t.day)

/-- Python `dt.replace(hour=h, minute=m, second=0, microsecond=0)`. -/
def withTime (t : PDateTime) (h m : Nat) : PDateTime := { t with hour := h, minute := m }

/-- Advance one calendar day, keeping the time of day. -/
def dateSucc (t : PDateTime) : PDateTime :=
  if t.day < daysInMonth t.year t.month then { t with day := t.day + 1 }
  else if t.month < 12 then { t with month := t.month + 1, day := 1 }
  else { t with year := t.year + 1, month := 1, day := 1 }

/-- Python `dt + timedelta(days=k)` for a naive datetime. -/
def addDays (t : PDateTime) : Nat → PDateTime
  | 0 => t
  | k + 1 => dateSucc (addDays t k)

/-- The record denotes a real calendar date. -/
def ValidDate (t : PDateTime) : Prop :=
  1 ≤ t.year ∧ 1 ≤ t.month ∧ t.month ≤ 12 ∧ 1 ≤ t.day ∧ t.day ≤ daysInMonth t.year t.month

instance (t : PDateTime) : Decidable (ValidDate t) := by unfold ValidDate; infer_instance

/-! ## Schedule model (`services/recurring_quests.py`) -/

/-- Value found under the `day` key of a schedule JSON document: a weekday
name for weekly schedules, a day-of-month number for monthly ones. -/
inductive JVal where
  | jstr (s : String)
  | jnum (n : Int)
deriving DecidableEq, Repr

/-- The keys of a parsed schedule JSON dict read by the scheduler; a missing
key is `none` (`dict.get`). -/
structure Schedule where
  type : Option String := none
  time : Option String := none
  day : Option JVal := none
deriving DecidableEq, Repr

/-- Parse result of the JSON text stored in `quest_template.schedule`. -/
inductive StoredSchedule where
  | malformed
  | parsed (s : Schedule)
deriving DecidableEq, Repr

/-- Embeds `parse_time` (`recurring_quests.py` lines 14-33): splits on a
colon, converts both parts with `int()`, and range-checks them. -/
def parse_time (time_str : String) : Except ApiError (Int × Int) :=
  match (splitOnChar ':' time_str.data).map pyToInt with
  | [some hour, some minute] =>
    if 0 ≤ hour ∧ hour ≤ 23 ∧ 0 ≤ minute ∧ minute ≤ 59 then Except.ok (hour, minute)
    else Except.error (ApiError.valueError "Invalid time format")
  | _ => Except.error (ApiError.valueError "Invalid time format")

/-- Embeds the weekly `day_map.get(day_name, 0)` lookup. -/
def weekdayDayMap (name : String) : Nat :=
  if name = "monday" then 0
  else if name = "tuesday" then 1
  else if name = "wednesday" then 2
  else if name = "thursday" then 3
  else if name = "friday" then 4
  else if name = "saturday" then 5
  else if name = "sunday" then 6
  else 0

/-- Python truthiness test `last_generated_at and last_generated_at.month ==
now.month and last_generated_at.year == now.year`. -/
def sameMonth (last : Option PDateTime) (now : PDateTime) : Bool :=
  match last with
  | some lg => lg.month == now.month && lg.year == now.year
  | none => false

/-- Embeds `target_date.replace(day=day_of_month)` wrapped in the
`try/except ValueError` that clamps to `calendar.monthrange(...)[1]`. -/
def setDayClamped (t : PDateTime) (dom : Int) : PDateTime :=
  if 1 ≤ dom ∧ dom ≤ (daysInMonth t.year t.month : Int) then { t with day := dom.toNat }
  else { t with day := daysInMonth t.year t.month }

/-- Embeds `calculate_next_generation_time` (`recurring_quests.py` lines
36-167).  `now` is passed explicitly in place of `datetime.now()`. -/
def calculate_next_generation_time (last : Option PDateTime) (schedule : Schedule)
    (now : PDateTime) : Except ApiError PDateTime :=
  if schedule.type = some "daily" then
    match parse_time (schedule.time.getD "00:00") with
    | Except.error e => Except.error e
    | Except.ok (hour, minute) =>
      let today_scheduled := withTime now hour.toNat minute.toNat
      match last with
      | none => Except.ok today_scheduled
      | some lg =>
        if lg.date = now.date then Except.ok (addDays today_scheduled 1)
        else Except.ok today_scheduled
  else if schedule.type = some "weekly" then
    -- `schedule.get("day", "monday").lower()`: a non-string raises AttributeError
    match (match schedule.day with
           | none => Except.ok (pyLower "monday")
           | some (JVal.jstr s) => Except.ok (pyLower s)
           | some (JVal.jnum _) => Except.error (ApiError.attributeError "lower")) with
    | Except.error e => Except.error e
    | Except.ok day_name =>
      match parse_time (schedule.time.getD "00:00") with
      | Except.error e => Except.error e
      | Except.ok (hour, minute) =>
        let target_weekday : Int := (weekdayDayMap day_name : Int)
        let d0 : Int := target_weekday - (weekday now : Int)
        let days_ahead : Int :=
          if d0 < 0 then d0 + 7
          else if d0 = 0 then
            (if (now.hour : Int) > hour ∨ ((now.hour : Int) = hour ∧ minute ≤ (now.minute : Int))
             then 7 else 0)
          else d0
        let next_occurrence := withTime (addDays now days_ahead.toNat) hour.toNat minute.toNat
        let next_occurrence :=
          match last with
          | some lg =>
            if toMin now - 7 * 1440 ≤ toMin lg then
              (if toMin next_occurrence - toMin lg < 7 * 1440 then addDays next_occurrence 7
               else next_occurrence)
            else next_occurrence
          | none => next_occurrence
        Except.ok next_occurrence
  else if schedule.type = some "monthly" then
    -- `schedule.get("day", 1)`: a non-integer makes `replace(day=...)` raise TypeError
    match (match schedule.day with
           | none => Except.ok (1 : Int)
           | some (JVal.jnum n) => Except.ok n
           | some (JVal.jstr _) => Except.error (ApiError.typeError "day must be an integer")) with
    | Except.error e => Except.error e
    | Except.ok day_of_month =>
      match parse_time (schedule.time.getD "00:00") with
      | Except.error e => Except.error e
      | Except.ok (hour, minute) =>
        let h := hour.toNat
        let mnt := minute.toNat
        if sameMonth last now then
          -- already generated this month: target next month's occurrence
          let target : PDateTime :=
            if now.month = 12 then ⟨now.year + 1, 1, 1, h, mnt⟩
            else ⟨now.year, now.month + 1, 1, h, mnt⟩
          Except.ok (setDayClamped target day_of_month)
        else
          let target := setDayClamped ⟨now.year, now.month, 1, h, mnt⟩ day_of_month
          if toMin target ≤ toMin now then
            -- occurrence already passed this month: move to next month
            if now.month = 12 then
              Except.ok (setDayClamped { target with year := now.year + 1, month := 1 } day_of_month)
            else
              -- `target_date.replace(month=now.month + 1)` keeps the day and
              -- raises ValueError (uncaught here) if that day does not exist
              if target.day ≤ daysInMonth now.year (now.month + 1) then
                Except.ok (setDayClamped { target with month := now.month + 1 } day_of_month)
              else Except.error (ApiError.valueError "day is out of range for month")
          else Except.ok target
  else Except.error (ApiError.valueError "Unknown schedule type")

/-- The `days_ahead` subcomputation of the weekly branch
(`recurring_quests.py` lines 92-97), specialised to the schedule
`{"type": "weekly", "day": "Monday", "time": "08:00"}`; named so theorems
can reason about the chosen offset separately from the rest of the branch. -/
def weeklyDaysAhead (now : PDateTime) : Int :=
  let target_weekday : Int := (weekdayDayMap (pyLower "Monday") : Int)
  let d0 : Int := target_weekday - (weekday now : Int)
  if d0 < 0 then d0 + 7
  else if d0 = 0 then
    (if (now.hour : Int) > 8 ∨ ((now.hour : Int) = 8 ∧ (0 : Int) ≤ (now.minute : Int))
     then 7 else 0)
  else d0

/-! ## Data model (`app/models`)

Timestamps on rows are minute ordinals (`Int`), matching `toMin` of the
calendar model.  `DailyBounty.bounty_date` is a local calendar-day ordinal in
the household timezone. -/

/-- Embeds `models/quest.py` `Quest`. -/
structure Quest where
  id : Nat
  home_id : Nat
  user_id : Nat
  quest_template_id : Option Nat := none
  completed : Bool := false
  created_at : Int
  completed_at : Option Int := none
  title : String := ""
  display_name : Option String := none
  description : Option String := none
  tags : Option String := none
  xp_reward : Int := 0
  gold_reward : Int := 0
  quest_type : String := "standard"
  due_date : Option Int := none
  corrupted_at : Option Int := none
deriving DecidableEq, Repr

/-- Embeds `models/user.py` `User`.  The consumable columns
`active_xp_boost_count` and `active_shield_expiry` are created by the
`add_consumable_tracking_fields` migration and read and written throughout
`routes/quest.py` and `crud/reward.py`. -/
structure User where
  id : Nat
  home_id : Nat
  username : String := ""
  level : Int := 1
  xp : Int := 0
  gold_balance : Int := 0
  active_xp_boost_count : Int := 0
  active_shield_expiry : Option Int := none
deriving DecidableEq, Repr

/-- Embeds `models/daily_bounty.py` `DailyBounty`. -/
structure DailyBounty where
  id : Nat
  home_id : Nat
  user_id : Nat
  quest_id : Option Nat := none
  bounty_date : Int
  status : String := "none_eligible"
  created_at : Int := 0
deriving DecidableEq, Repr

/-- Embeds `models/quest.py` `QuestTemplate`; the stored schedule JSON string
is modelled by its parse result. -/
structure QuestTemplate where
  id : Nat
  home_id : Nat
  title : String := ""
  display_name : Option String := none
  description : Option String := none
  tags : Option String := none
  xp_reward : Int := 10
  gold_reward : Int := 5
  quest_type : String := "standard"
  recurrence : String := "one-off"
  schedule : Option StoredSchedule := none
  last_generated_at : Option PDateTime := none
  due_in_hours : Option Int := none
  system : Bool := false
  created_by : Nat := 0
deriving DecidableEq, Repr

/-- Database state threaded through the handlers.  The `next_*` counters
model primary-key assignment. -/
structure AppState where
  quests : List Quest := []
  users : List User := []
  templates : List QuestTemplate := []
  bounties : List DailyBounty := []
  next_quest_id : Nat := 1
  next_bounty_id : Nat := 1
deriving DecidableEq, Repr

/-! ## CRUD layer (`app/crud`) -/

/-- Embeds `crud/quest.py` `get_quest`. -/
def get_quest (s : AppState) (quest_id : Nat) : Option Quest :=
  s.quests.find? (fun q => q.id == quest_id)

/-- Embeds `crud/user.py` `get_user`. -/
def get_user (s : AppState) (user_id : Nat) : Option User :=
  s.users.find? (fun u => u.id == user_id)

/-- Embeds `crud/quest_template.py` `get_quest_template`. -/
def get_quest_template (s : AppState) (template_id : Nat) : Option QuestTemplate :=
  s.templates.find? (fun t => t.id == template_id)

/-- In-place mutation of a fetched quest row, as seen by the session. -/
def updateQuestList (l : List Quest) (quest_id : Nat) (f : Quest → Quest) : List Quest :=
  l.map (fun q => if q.id == quest_id then f q else q)

/-- In-place mutation of a fetched user row, as seen by the session. -/
def updateUserList (l : List User) (user_id : Nat) (f : User → User) : List User :=
  l.map (fun u => if u.id == user_id then f u else u)

/-- In-place mutation of a fetched template row, as seen by the session. -/
def updateTemplateList (l : List QuestTemplate) (template_id : Nat) (f : QuestTemplate → QuestTemplate) :
    List QuestTemplate :=
  l.map (fun t => if t.id == template_id then f t else t)

/-- Loop of `crud/user.py` `calculate_level`: `lm1 + 1` is the running
`level` of the Python loop, which adds `level * 100` to the threshold and
increments the level while `xp >= threshold`, returning `level - 1`.  The
first argument is structural fuel: every iteration raises the threshold by
at least 100 while the loop runs only as long as `threshold ≤ xp`, so
`xp/100 + 1` iterations are the most that can occur and the fuel below is
never exhausted. -/
def calculateLevelGo : Nat → Int → Nat → Int → Nat
  | 0, _, lm1, _ => lm1
  | fuel + 1, xp, lm1, threshold =>
    if threshold ≤ xp then calculateLevelGo fuel xp (lm1 + 1) (threshold + (lm1 + 1) * 100)
    else lm1

/-- Embeds `crud/user.py` `calculate_level`. -/
def calculate_level (xp : Int) : Nat := calculateLevelGo (xp.toNat + 2) xp 0 0

/-- Embeds `crud/user.py` `add_xp`: adds XP and recomputes the level. -/
def add_xp (s : AppState) (user_id : Nat) (amount : Int) : AppState × Option User :=
  match get_user s user_id with
  | none => (s, none)
  | some u =>
    let u' := { u with xp := u.xp + amount, level := (calculate_level (u.xp + amount) : Int) }
    ({ s with users := updateUserList s.users user_id (fun _ => u') }, some u')

/-- Embeds `crud/user.py` `add_gold` (lines 75-85): the delta is applied
unconditionally — there is no balance check and no failure path. -/
def add_gold (s : AppState) (user_id : Nat) (amount : Int) : AppState × Option User :=
  match get_user s user_id with
  | none => (s, none)
  | some u =>
    let u' := { u with gold_balance := u.gold_balance + amount }
    ({ s with users := updateUserList s.users user_id (fun _ => u') }, some u')

/-- Embeds `models/quest.py` `QuestUpdate`: the only updatable quest fields.
The outer `Option` distinguishes an unset field (`exclude_unset`). -/
structure QuestUpdate where
  completed : Option Bool := none
  quest_type : Option String := none
  due_date : Option (Option Int) := none
deriving DecidableEq, Repr

/-- Embeds `crud/quest.py` `update_quest` (lines 98-111): set fields are
applied with no check of the completion state. -/
def update_quest (s : AppState) (quest_id : Nat) (quest_in : QuestUpdate) : AppState × Option Quest :=
  match get_quest s quest_id with
  | none => (s, none)
  | some q =>
    let q' := { q with
      completed := quest_in.completed.getD q.completed,
      quest_type := quest_in.quest_type.getD q.quest_type,
      due_date := match quest_in.due_date with | some v => v | none => q.due_date }
    ({ s with quests := updateQuestList s.quests quest_id (fun _ => q') }, some q')

/-- Embeds `crud/quest.py` `complete_quest`: marks the row completed and
overwrites the reward snapshot with the actually earned amounts. -/
def complete_quest_crud (s : AppState) (quest_id : Nat) (final_xp final_gold : Option Int) (now : Int) :
    AppState × Option Quest :=
  match get_quest s quest_id with
  | none => (s, none)
  | some q =>
    let q' := { q with
      completed := true
      completed_at := some now
      xp_reward := final_xp.getD q.xp_reward
      gold_reward := final_gold.getD q.gold_reward }
    ({ s with quests := updateQuestList s.quests quest_id (fun _ => q') }, some q')

/-- Row built by `crud/quest.py` `create_quest`: a new instance snapshotting
the template, `quest_type` left at its default `"standard"`. -/
def newQuestFromTemplate (home_id user_id : Nat) (due_date : Option Int)
    (template : QuestTemplate) (now : Int) (next_id : Nat) : Quest := {
  id := next_id
  home_id := home_id
  user_id := user_id
  quest_template_id := some template.id
  completed := false
  created_at := now
  completed_at := none
  title := template.title
  display_name := template.display_name
  description := template.description
  tags := template.tags
  xp_reward := template.xp_reward
  gold_reward := template.gold_reward
  quest_type := "standard"
  due_date := due_date
  corrupted_at := none }

/-- Embeds `crud/quest.py` `create_quest`: insert and commit the snapshot
instance. -/
def create_quest_crud (s : AppState) (home_id user_id : Nat) (due_date : Option Int)
    (template : QuestTemplate) (now : Int) : AppState × Quest :=
  let q := newQuestFromTemplate home_id user_id due_date template now s.next_quest_id
  ({ s with quests := s.quests ++ [q], next_quest_id := s.next_quest_id + 1 }, q)

/-- Selection predicate of `check_and_corrupt_overdue_quests`: not completed,
with a due date in the past, not already corrupted. -/
def overduePred (now : Int) (q : Quest) : Bool :=
  !q.completed && (match q.due_date with | some d => decide (d < now) | none => false)
    && q.quest_type != "corrupted"

/-- Field mutation applied to each overdue quest by the corruption sweep. -/
def corruptQuest (now : Int) (q : Quest) : Quest :=
  { q with quest_type := "corrupted", corrupted_at := some now }

/-- Embeds `crud/quest.py` `check_and_corrupt_overdue_quests` (lines
125-157): selects the overdue quests, mutates each in place, and returns the
mutated rows. -/
def check_and_corrupt_overdue_quests (s : AppState) (now : Int) : AppState × List Quest :=
  ({ s with quests := s.quests.map (fun q => if overduePred now q then corruptQuest now q else q) },
   (s.quests.filter (overduePred now)).map (corruptQuest now))

/-! ## Daily bounty (`crud/daily_bounty.py`)

`today` is the household-local calendar day computed by `_get_home_today`
from the household timezone; `nowMin` is the UTC instant used for the 48 hour
age cutoff and for `created_at` defaults. -/

/-- Embeds `MIN_BOUNTY_AGE_HOURS`. -/
def MIN_BOUNTY_AGE_HOURS : Int := 48

/-- Embeds `get_bounty_for_date`. -/
def get_bounty_for_date (s : AppState) (home_id user_id : Nat) (target_date : Int) :
    Option DailyBounty :=
  s.bounties.find? (fun b => b.home_id == home_id && b.user_id == user_id
    && b.bounty_date == target_date)

/-- Embeds `get_today_bounty` — note the three required arguments. -/
def get_today_bounty (s : AppState) (home_id user_id : Nat) (today : Int) : Option DailyBounty :=
  get_bounty_for_date s home_id user_id today

/-- Embeds `_get_eligible_active_quests`: the user's not-completed quests at
least 48 hours old. -/
def get_eligible_active_quests (s : AppState) (home_id user_id : Nat) (nowMin : Int) : List Quest :=
  s.quests.filter (fun q => q.home_id == home_id && q.user_id == user_id
    && q.completed == false && decide (q.created_at ≤ nowMin - MIN_BOUNTY_AGE_HOURS * 60))

/-- Embeds `_create_decision`: inserts and commits a decision row. -/
def create_decision (s : AppState) (home_id user_id : Nat) (target_date : Int) (status : String)
    (quest_id : Option Nat) (nowMin : Int) : AppState × DailyBounty :=
  let d : DailyBounty := {
    id := s.next_bounty_id
    home_id := home_id
    user_id := user_id
    quest_id := quest_id
    bounty_date := target_date
    status := status
    created_at := nowMin }
  ({ s with bounties := s.bounties ++ [d], next_bounty_id := s.next_bounty_id + 1 }, d)

/-- Anti-repeat step of `get_or_create_today_bounty` (lines 102-113):
yesterday's assigned pick is removed from the pool only when it is still a
candidate and more than one candidate exists. -/
def anti_repeat_filter (candidates : List Quest) (yesterday_decision : Option DailyBounty) :
    List Quest :=
  match yesterday_decision with
  | none => candidates
  | some yd =>
    match yd.quest_id with
    | none => candidates
    | some qy =>
      if candidates.length > 1 && yd.status == "assigned"
          && (candidates.map (fun q => q.id)).contains qy then
        candidates.filter (fun q => q.id != qy)
      else candidates

/-- Embeds `get_or_create_today_bounty` (lines 82-134).  `pick` is the
ambient randomness of `random.choice`; the `IntegrityError` fallback for the
concurrent-insert race does not arise in this sequential model. -/
def get_or_create_today_bounty (s : AppState) (home_id user_id : Nat) (today : Int)
    (nowMin : Int) (pick : Nat) : AppState × Except ApiError DailyBounty :=
  match get_bounty_for_date s home_id user_id today with
  | some existing => (s, Except.ok existing)
  | none =>
    let candidates := get_eligible_active_quests s home_id user_id nowMin
    if candidates.isEmpty then
      let (s', d) := create_decision s home_id user_id today "none_eligible" none nowMin
      (s', Except.ok d)
    else
      let filtered := anti_repeat_filter candidates (get_bounty_for_date s home_id user_id (today - 1))
      match filtered.get? (pick % filtered.length) with
      | none => (s, Except.error (ApiError.indexError "choice on an empty sequence"))
      | some chosen =>
        let (s', d) := create_decision s home_id user_id today "assigned" (some chosen.id) nowMin
        (s', Except.ok d)

/-! ## Reward pipeline and completion route (`routes/quest.py`) -/

/-- Python truthiness of `user.active_shield_expiry and
user.active_shield_expiry > now`. -/
def shieldActive (u : User) (now : Int) : Bool :=
  match u.active_shield_expiry with
  | some e => decide (now < e)
  | none => false

/-- Count of active corrupted quests in the home
(`routes/quest.py` lines 47-52). -/
def corrupted_count (s : AppState) (home_id : Nat) : Nat :=
  (s.quests.filter (fun q => q.home_id == home_id && q.quest_type == "corrupted"
    && q.completed == false)).length

/-- Embeds `_calculate_corruption_debuff` (`routes/quest.py` lines 31-58),
float arithmetic modelled over `ℚ`. -/
def calculate_corruption_debuff (s : AppState) (home_id : Nat) (u : User) (now : Int) : ℚ :=
  if shieldActive u now then 1
  else 1 - (min ((corrupted_count s home_id : ℚ) * 5) 50) / 100

/-- Reward arithmetic of `complete_quest` (`routes/quest.py` lines 286-303),
given the `is_daily_bounty` and `has_xp_boost` flags the route derives:
base, debuff on both, bounty multiplier on both, XP boost on XP only,
truncated by `int()`. -/
def completionRewardMath (base_xp base_gold : Int) (debuff : ℚ)
    (is_daily_bounty has_xp_boost : Bool) : Int × Int :=
  let bounty_multiplier : ℚ := if is_daily_bounty then 2 else 1
  let xp_boost_multiplier : ℚ := if has_xp_boost then 2 else 1
  let xp_after_debuff := (base_xp : ℚ) * debuff
  let gold_after_debuff := (base_gold : ℚ) * debuff
  let xp_after_bounty := xp_after_debuff * bounty_multiplier
  let gold_after_bounty := gold_after_debuff * bounty_multiplier
  (pyInt (xp_after_bounty * xp_boost_multiplier), pyInt gold_after_bounty)

/-- Models the call at `routes/quest.py` line 268,
`crud_daily_bounty.get_today_bounty(db, auth["home_id"])`: the crud function
`get_today_bounty(db, home_id, user_id)` takes three required parameters, so
this two-argument call raises `TypeError` before reading any bounty row. -/
def routeTodayBountyCall : Except ApiError DailyBounty :=
  Except.error (ApiError.typeError "get_today_bounty missing 1 required positional argument")

/-- Reward breakdown returned by a successful completion. -/
structure CompleteResponse where
  xp : Int
  gold : Int
  base_xp : Int
  base_gold : Int
deriving DecidableEq, Repr

/-- Embeds the `complete_quest` handler (`routes/quest.py` lines 215-350) up
to the point it can reach: quest lookup and home check, the double-completion
guard, the user lookup, then the line-268 bounty lookup, which raises
`TypeError`; had it returned, the next line would read
`today_bounty.quest_template_id`, a field `DailyBounty` does not define
(`AttributeError`).  No crud call commits before line 268, so on every error
path the committed state is the input state. -/
def complete_quest_route (s : AppState) (auth_home : Nat) (quest_id : Nat) (_now : Int) :
    AppState × Except ApiError CompleteResponse :=
  match get_quest s quest_id with
  | none => (s, Except.error (ApiError.http 404 "QUEST_NOT_FOUND"))
  | some quest =>
    if quest.home_id ≠ auth_home then (s, Except.error (ApiError.http 404 "QUEST_NOT_FOUND"))
    else if quest.completed then (s, Except.error (ApiError.http 400 "QUEST_ALREADY_COMPLETED"))
    else
      match get_user s quest.user_id with
      | none => (s, Except.error (ApiError.http 404 "USER_NOT_FOUND"))
      | some _user =>
        match routeTodayBountyCall with
        | Except.error e => (s, Except.error e)
        | Except.ok _ => (s, Except.error (ApiError.attributeError "quest_template_id"))

/-! ## NFC trigger route (`routes/triggers.py`) -/

/-- Response of the trigger handler: rewards and post-award user stats. -/
structure TriggerResponse where
  rewards_xp : Int
  rewards_gold : Int
  level : Int
  xp : Int
  gold : Int
deriving DecidableEq, Repr

/-- Embeds `trigger_quest` (`routes/triggers.py` lines 14-61): creates an
instance from the template, completes it immediately, and awards the base
rewards — the route itself notes that no multipliers are applied. -/
def trigger_quest (s : AppState) (auth_home auth_user : Nat) (quest_template_id : Nat) (now : Int) :
    AppState × Except ApiError TriggerResponse :=
  match get_quest_template s quest_template_id with
  | none => (s, Except.error (ApiError.http 404 "Quest template not found"))
  | some template =>
    if template.home_id ≠ auth_home then
      (s, Except.error (ApiError.http 403 "Not authorized to trigger this quest"))
    else
      let (s₁, quest) := create_quest_crud s auth_home auth_user none template now
      let base_xp := quest.xp_reward
      let base_gold := quest.gold_reward
      match complete_quest_crud s₁ quest.id (some base_xp) (some base_gold) now with
      | (s₂, none) => (s₂, Except.error (ApiError.valueError "validation"))
      | (s₂, some _) =>
        match add_xp s₂ auth_user base_xp with
        | (s₃, none) => (s₃, Except.error (ApiError.attributeError "level"))
        | (s₃, some _) =>
          match add_gold s₃ auth_user base_gold with
          | (s₄, none) => (s₄, Except.error (ApiError.attributeError "level"))
          | (s₄, some user) =>
            (s₄, Except.ok {
              rewards_xp := base_xp
              rewards_gold := base_gold
              level := user.level
              xp := user.xp
              gold := user.gold_balance })

/-! ## Quest update route (`routes/quest.py` lines 541-554) -/

/-- Embeds the `update_quest` handler: home check, then the unconditional
crud update. -/
def update_quest_route (s : AppState) (auth_home : Nat) (quest_id : Nat) (quest_in : QuestUpdate) :
    AppState × Except ApiError Quest :=
  match get_quest s quest_id with
  | none => (s, Except.error (ApiError.http 404 "Quest not found"))
  | some q =>
    if q.home_id ≠ auth_home then (s, Except.error (ApiError.http 404 "Quest not found"))
    else
      match update_quest s quest_id quest_in with
      | (s', some q') => (s', Except.ok q')
      | (s', none) => (s', Except.error (ApiError.http 404 "Quest not found"))

/-! ## Recurring generation sweep (`services/recurring_quests.py` lines
170-270).  The whole sweep commits once at its end, so an error outcome
leaves the database at the input state. -/

/-- Embeds `get_home_users`. -/
def get_home_users (s : AppState) (home_id : Nat) : List User :=
  s.users.filter (fun u => u.home_id == home_id)

/-- Snapshot instance materialized by the generation sweep for one user,
with `due_date = now + due_in_hours` under Python truthiness. -/
def sweepNewQuest (home_id : Nat) (t : QuestTemplate) (now : PDateTime) (next_id : Nat)
    (u : User) : Quest := {
  id := next_id
  home_id := home_id
  user_id := u.id
  quest_template_id := some t.id
  completed := false
  created_at := toMin now
  completed_at := none
  title := t.title
  display_name := t.display_name
  description := t.description
  tags := t.tags
  xp_reward := t.xp_reward
  gold_reward := t.gold_reward
  quest_type := "standard"
  due_date := match t.due_in_hours with
    | some h => if h ≠ 0 then some (toMin now + h * 60) else none
    | none => none
  corrupted_at := none }

/-- Inner loop of `generate_due_quests`: one snapshot instance per user of
the home. -/
def sweepCreateForUsers (home_id : Nat) (t : QuestTemplate) (now : PDateTime) :
    AppState → List User → AppState
  | s, [] => s
  | s, u :: rest =>
    sweepCreateForUsers home_id t now
      { s with quests := s.quests ++ [sweepNewQuest home_id t now s.next_quest_id u],
               next_quest_id := s.next_quest_id + 1 } rest

/-- Body of the template loop of `generate_due_quests`: skip when there is no
schedule, when the schedule is malformed or raises `ValueError`, when the
next generation time is still ahead, or when an incomplete instance of this
template exists; otherwise create one instance per home user and advance
`last_generated_at`. -/
def sweepStep (home_id : Nat) (now : PDateTime) (s : AppState) (t : QuestTemplate) :
    Except ApiError AppState :=
  match t.schedule with
  | none => Except.ok s
  | some StoredSchedule.malformed => Except.ok s
  | some (StoredSchedule.parsed sched) =>
    match calculate_next_generation_time t.last_generated_at sched now with
    | Except.error (ApiError.valueError _) => Except.ok s
    | Except.error e => Except.error e
    | Except.ok next_generation_time =>
      if toMin next_generation_time ≤ toMin now then
        match s.quests.find? (fun q => q.quest_template_id == some t.id && q.completed == false) with
        | some _ => Except.ok s
        | none =>
          let users := get_home_users s home_id
          let s' := sweepCreateForUsers home_id t now s users
          let stamped := updateTemplateList s'.templates t.id
            (fun t0 => { t0 with last_generated_at := some now })
          Except.ok { s' with templates := stamped }
      else Except.ok s

/-- Fold of `sweepStep` over the pre-fetched template list. -/
def sweepTemplates (home_id : Nat) (now : PDateTime) :
    AppState → List QuestTemplate → Except ApiError AppState
  | s, [] => Except.ok s
  | s, t :: rest =>
    match sweepStep home_id now s t with
    | Except.error e => Except.error e
    | Except.ok s' => sweepTemplates home_id now s' rest

/-- Embeds `generate_due_quests`: fetch the home's recurring templates
outside the one-hour cooldown, then run the loop. -/
def generate_due_quests (s : AppState) (home_id : Nat) (now : PDateTime) :
    Except ApiError AppState :=
  let templates := s.templates.filter (fun t =>
    t.home_id == home_id && t.recurrence != "one-off" &&
    (match t.last_generated_at with
     | none => true
     | some lg => decide (toMin lg < toMin now - 60)))
  sweepTemplates home_id now s templates

/-! ## Concrete fixtures used by witnesses and counterexamples -/

/-- Fixture: an active quest that is the bounty pick of its user for today. -/
def questC1 : Quest := { id := 1, home_id := 1, user_id := 1, created_at := 0, xp_reward := 50, gold_reward := 25 }

/-- Fixture: a plain user. -/
def userC1 : User := { id := 1, home_id := 1 }

/-- Fixture: the locked daily-bounty row naming `questC1` with status assigned. -/
def bountyC1 : DailyBounty := { id := 1, home_id := 1, user_id := 1, quest_id := some 1, bounty_date := 738000, status := "assigned" }

/-- Fixture state for the completion-route evaluation. -/
def csC1 : AppState := { quests := [questC1], users := [userC1], bounties := [bountyC1], next_quest_id := 2, next_bounty_id := 2 }

/-- Fixture: one active corrupted quest in home 1. -/
def questC2 : Quest := { id := 1, home_id := 1, user_id := 1, created_at := 0, quest_type := "corrupted" }

/-- Fixture: a user with no shield and no boost. -/
def userC2 : User := { id := 1, home_id := 1 }

/-- Fixture state with exactly one active corrupted quest. -/
def csC2 : AppState := { quests := [questC2], users := [userC2] }

/-- Fixture: a template worth 50 XP and 25 gold. -/
def tmplC3 : QuestTemplate := { id := 1, home_id := 1, title := "bins", xp_reward := 50, gold_reward := 25 }

/-- Fixture: an active corrupted quest in the home, so the pipeline debuff
would be 0.95. -/
def questC3 : Quest := { id := 1, home_id := 1, user_id := 1, created_at := 0, quest_type := "corrupted" }

/-- Fixture: the triggering user, no shield, no boost. -/
def userC3 : User := { id := 1, home_id := 1 }

/-- Fixture state for the NFC trigger route. -/
def csC3 : AppState := { quests := [questC3], users := [userC3], templates := [tmplC3], next_quest_id := 2 }

/-- Fixture: a completed quest whose `quest_type` is still `"standard"`. -/
def questC8 : Quest := { id := 1, home_id := 1, user_id := 1, created_at := 0, completed := true, xp_reward := 50, gold_reward := 25 }

/-- Fixture state holding only `questC8`. -/
def csC8 : AppState := { quests := [questC8], users := [{ id := 1, home_id := 1 }], next_quest_id := 2 }

/-- Fixture update payload setting only `quest_type`. -/
def updC8 : QuestUpdate := { quest_type := some "corrupted" }

/-- Fixture: a user holding 10 gold. -/
def userC9 : User := { id := 1, home_id := 1, gold_balance := 10 }

/-- Fixture state for the gold primitive. -/
def csC9 : AppState := { users := [userC9] }

/-- Fixture: an already completed quest. -/
def questC10 : Quest := { id := 1, home_id := 1, user_id := 1, created_at := 0, completed := true }

/-- Fixture state for the double-completion check. -/
def csC10 : AppState := { quests := [questC10], users := [{ id := 1, home_id := 1 }], next_quest_id := 2 }

/-- Fixture: an overdue active quest (due at minute 10). -/
def questC7 : Quest := { id := 1, home_id := 1, user_id := 1, created_at := 0, due_date := some 10 }

/-- Fixture: a completed quest whose due date is also past. -/
def questC7done : Quest := { id := 2, home_id := 1, user_id := 1, created_at := 0, completed := true, due_date := some 10 }

/-- Fixture state for the corruption sweep. -/
def csC7 : AppState := { quests := [questC7, questC7done], users := [{ id := 1, home_id := 1 }], next_quest_id := 3 }

/-- Fixture: an aged active quest, eligible for the bounty at minute 10000. -/
def questC4a : Quest := { id := 1, home_id := 1, user_id := 1, created_at := 0 }

/-- Fixture: a second aged active quest for the same user. -/
def questC4b : Quest := { id := 2, home_id := 1, user_id := 1, created_at := 0 }

/-- Fixture: yesterday's assigned decision naming quest 1. -/
def ydC4 : DailyBounty := { id := 1, home_id := 1, user_id := 1, quest_id := some 1, bounty_date := 99, status := "assigned" }

/-- Fixture state with one eligible quest and no decisions. -/
def csC4i : AppState := { quests := [questC4a], users := [{ id := 1, home_id := 1 }], next_quest_id := 3 }

/-- Fixture state with no quests at all. -/
def csC4ii : AppState := { users := [{ id := 1, home_id := 1 }] }

/-- Fixture state with one eligible quest that is also yesterday's pick. -/
def csC4iii : AppState := { quests := [questC4a], users := [{ id := 1, home_id := 1 }], bounties := [ydC4], next_quest_id := 3, next_bounty_id := 2 }

/-- Fixture state with two eligible quests, yesterday's pick among them. -/
def csC4iv : AppState := { quests := [questC4a, questC4b], users := [{ id := 1, home_id := 1 }], bounties := [ydC4], next_quest_id := 3, next_bounty_id := 2 }

/-- Fixture: a daily recurring template due for generation. -/
def tmplC6 : QuestTemplate := { id := 1, home_id := 1, title := "dishes", recurrence := "daily", schedule := some (StoredSchedule.parsed { type := some "daily", time := some "08:00" }) }

/-- Fixture: an incomplete instance generated from `tmplC6`. -/
def questC6 : Quest := { id := 1, home_id := 1, user_id := 1, created_at := 0, quest_template_id := some 1 }

/-- Fixture state where the template is due but an instance is outstanding. -/
def csC6 : AppState := { quests := [questC6], users := [{ id := 1, home_id := 1 }], templates := [tmplC6], next_quest_id := 2 }

/-- Fixture instant: noon, well past the 08:00 generation time. -/
def nowC6 : PDateTime := ⟨1, 1, 10, 12, 0⟩

/-- Fixture schedule: daily at 08:00. -/
def schedDailyC5 : Schedule := { type := some "daily", time := some "08:00" }

/-- Fixture schedule: weekly on Monday at 08:00. -/
def schedWeeklyC5 : Schedule := { type := some "weekly", time := some "08:00", day := some (JVal.jstr "Monday") }

/-- Fixture schedule: monthly on the 31st at 08:00. -/
def schedMonthlyC5 : Schedule := { type := some "monthly", time := some "08:00", day := some (JVal.jnum 31) }

/-- Fixture schedule: an unknown type. -/
def schedHourlyC5 : Schedule := { type := some "hourly", time := some "08:00" }

/-! ## Theorems -/

/-- Helper: a search that fails on the prefix continues in the suffix. -/
theorem find?_append_of_none {α : Type _} (p : α → Bool) (l₁ l₂ : List α)
    (h : l₁.find? p = none) : (l₁ ++ l₂).find? p = l₂.find? p := by
  rw [List.find?_append, h]
  rfl

/-- Helper: a successful bounty resolution leaves a row that the day's key
lookup finds, so the decision is locked for the day. -/
theorem getOrCreate_locks (s : AppState) (home_id user_id : Nat) (today nowMin : Int)
    (pick : Nat) (d : DailyBounty)
    (hok : (get_or_create_today_bounty s home_id user_id today nowMin pick).2 = Except.ok d) :
    get_bounty_for_date (get_or_create_today_bounty s home_id user_id today nowMin pick).1
      home_id user_id today = some d := by
  rcases hex : get_bounty_for_date s home_id user_id today with _ | e
  · rw [get_or_create_today_bounty, hex] at hok ⊢
    by_cases hempty : (get_eligible_active_quests s home_id user_id nowMin).isEmpty = true
    · rw [if_pos hempty] at hok ⊢
      simp only [create_decision] at hok ⊢
      cases hok
      rw [get_bounty_for_date]
      rw [find?_append_of_none _ _ _ hex]
      simp
    · rw [if_neg hempty] at hok ⊢
      dsimp only at hok ⊢
      rcases hch : (anti_repeat_filter (get_eligible_active_quests s home_id user_id nowMin)
            (get_bounty_for_date s home_id user_id (today - 1))).get?
          (pick % (anti_repeat_filter (get_eligible_active_quests s home_id user_id nowMin)
            (get_bounty_for_date s home_id user_id (today - 1))).length) with _ | chosen
      · rw [hch] at hok
        dsimp only at hok
        cases hok
      · rw [hch] at hok
        simp only [create_decision] at hok ⊢
        cases hok
        rw [get_bounty_for_date]
        rw [find?_append_of_none _ _ _ hex]
        simp
  · rw [get_or_create_today_bounty, hex] at hok ⊢
    cases hok
    exact hex

/-- Helper: every month of a valid date has at least one day. -/
theorem daysInMonth_pos (y m : Nat) (h1 : 1 ≤ m) (h2 : m ≤ 12) : 1 ≤ daysInMonth y m := by
  interval_cases m <;> simp only [daysInMonth] <;> (try split) <;> norm_num

/-- Helper: advancing a valid date by one civil day advances its day ordinal
by one. -/
theorem toDays_dateSucc (t : PDateTime) (h : ValidDate t) : toDays (dateSucc t) = toDays t + 1 := by
  obtain ⟨hy, hm1, hm2, hd1, hd2⟩ := h
  rw [dateSucc]
  by_cases hlt : t.day < daysInMonth t.year t.month
  · rw [if_pos hlt]
    simp only [toDays]
    omega
  · have hd : t.day = daysInMonth t.year t.month := by omega
    rw [if_neg hlt]
    by_cases hm : t.month < 12
    · rw [if_pos hm]
      simp only [toDays]
      have hms : t.month - 1 + 1 = t.month := by omega
      have hstep : daysBeforeMonth t.year t.month
          = daysBeforeMonth t.year (t.month - 1) + daysInMonth t.year t.month := by
        conv_lhs => rw [← hms]
        rw [show daysBeforeMonth t.year ((t.month - 1) + 1)
            = daysBeforeMonth t.year (t.month - 1) + daysInMonth t.year ((t.month - 1) + 1)
          from rfl, hms]
      have hdim := daysInMonth_pos t.year t.month hm1 hm2
      rw [show t.month + 1 - 1 = t.month from by omega, hstep]
      omega
    · have hm12 : t.month = 12 := by omega
      rw [if_neg hm]
      simp only [toDays]
      have hyy : t.year - 1 + 1 = t.year := by omega
      have hdby : daysBeforeYear (t.year + 1) = daysBeforeYear t.year + daysInYear t.year := by
        conv_lhs => rw [← hyy]
        rw [show daysBeforeYear ((t.year - 1) + 1 + 1)
            = daysBeforeYear ((t.year - 1) + 1) + daysInYear ((t.year - 1) + 1) from rfl, hyy]
      have hdiy : daysInYear t.year = daysBeforeMonth t.year 11 + 31 := rfl
      have hd12 : t.day = 31 := by rw [hd, hm12]; rfl
      rw [hdby, hdiy, hm12, hd12]
      simp only [show (1 : Nat) - 1 = 0 from rfl, show (12 : Nat) - 1 = 11 from rfl,
        show ∀ y, daysBeforeMonth y 0 = 0 from fun _ => rfl]
      omega

/-- Helper: the civil successor of a valid date is valid. -/
theorem validDate_dateSucc (t : PDateTime) (h : ValidDate t) : ValidDate (dateSucc t) := by
  obtain ⟨hy, hm1, hm2, hd1, hd2⟩ := h
  rw [dateSucc]
  by_cases hlt : t.day < daysInMonth t.year t.month
  · rw [if_pos hlt]
    exact ⟨hy, hm1, hm2, by show 1 ≤ t.day + 1; omega,
      by show t.day + 1 ≤ daysInMonth t.year t.month; omega⟩
  · by_cases hm : t.month < 12
    · rw [if_neg hlt, if_pos hm]
      exact ⟨hy, by show 1 ≤ t.month + 1; omega, by show t.month + 1 ≤ 12; omega,
        by show (1 : Nat) ≤ 1; omega,
        by show 1 ≤ daysInMonth t.year (t.month + 1)
           exact daysInMonth_pos t.year (t.month + 1) (by omega) (by omega)⟩
    · rw [if_neg hlt, if_neg hm]
      exact ⟨by show 1 ≤ t.year + 1; omega, by show (1 : Nat) ≤ 1; omega,
        by show (1 : Nat) ≤ 12; omega, by show (1 : Nat) ≤ 1; omega,
        by show 1 ≤ daysInMonth (t.year + 1) 1; norm_num [daysInMonth]⟩

/-- Helper: adding days to a valid date shifts the day ordinal by that count
and stays valid. -/
theorem toDays_addDays (t : PDateTime) (h : ValidDate t) (k : Nat) :
    toDays (addDays t k) = toDays t + k ∧ ValidDate (addDays t k) := by
  induction k with
  | zero => exact ⟨rfl, h⟩
  | succ k ih =>
    rw [addDays]
    refine ⟨?_, validDate_dateSucc _ ih.2⟩
    rw [toDays_dateSucc _ ih.2, ih.1]
    omega

/-- Helper: looking an id up after an id-keyed in-place user update finds the
updated row, provided the update keeps the key matching. -/
theorem find?_updateUserList (l : List User) (uid : Nat) (f : User → User)
    (hf : ∀ u : User, (u.id == uid) = true → ((f u).id == uid) = true) :
    (updateUserList l uid f).find? (fun u => u.id == uid)
      = (l.find? (fun u => u.id == uid)).map f := by
  induction l with
  | nil => rfl
  | cons x l ih =>
    rw [updateUserList, List.map_cons]
    by_cases hx : (x.id == uid) = true
    · rw [if_pos hx, List.find?_cons, List.find?_cons]
      simp only [hf x hx, hx]
      rfl
    · have hx' : (x.id == uid) = false := by simpa using hx
      rw [if_neg hx, List.find?_cons, List.find?_cons]
      simp only [hx']
      rw [updateUserList] at ih
      exact ih

/-- Helper: the quest-list analogue of `find?_updateUserList`. -/
theorem find?_updateQuestList (l : List Quest) (qid : Nat) (f : Quest → Quest)
    (hf : ∀ q : Quest, (q.id == qid) = true → ((f q).id == qid) = true) :
    (updateQuestList l qid f).find? (fun q => q.id == qid)
      = (l.find? (fun q => q.id == qid)).map f := by
  induction l with
  | nil => rfl
  | cons x l ih =>
    rw [updateQuestList, List.map_cons]
    by_cases hx : (x.id == qid) = true
    · rw [if_pos hx, List.find?_cons, List.find?_cons]
      simp only [hf x hx, hx]
      rfl
    · have hx' : (x.id == qid) = false := by simpa using hx
      rw [if_neg hx, List.find?_cons, List.find?_cons]
      simp only [hx']
      rw [updateQuestList] at ih
      exact ih

/-- C3 counterexample: the claim says every completion path, including the
NFC trigger, persists the pipeline's output.  On the fixture state the home
has one active corrupted quest, so the pipeline output for base (50, 25)
would be (47, 23); the trigger route completes its instance and awards
exactly (50, 25), bypassing every modifier stage. -/
theorem C3_counterexample :
    (trigger_quest csC3 1 1 1 500).2 = Except.ok ⟨50, 25, 1, 50, 25⟩
  ∧ completionRewardMath 50 25 (calculate_corruption_debuff csC3 1 userC3 500) false false
      = (47, 23)
  ∧ (50 : Int) ≠ 47 := by
  refine ⟨by decide, ?_, by decide⟩
  have hdeb : calculate_corruption_debuff csC3 1 userC3 500 = 19 / 20 := by
    rw [calculate_corruption_debuff, if_neg (by decide),
      show corrupted_count csC3 1 = 1 from by decide]
    rw [show ((1 : ℕ) : ℚ) = 1 from by norm_num,
      show min ((1 : ℚ) * 5) 50 = 5 from by rw [one_mul]; exact min_eq_left (by norm_num)]
    norm_num
  rw [hdeb, completionRewardMath]
  simp only [if_false, Bool.false_eq_true, mul_one]
  rw [pyInt, pyInt, if_pos (by norm_num), if_pos (by norm_num)]
  norm_num

/-- C3 amended: the main completion route is the only path that attempts the
reward pipeline; the NFC trigger path completes its freshly created instance
and awards exactly the base snapshotted rewards — no corruption debuff,
bounty multiplier or XP boost stage is applied — persisting those deltas on
the user and storing them on the completed quest. -/
theorem C3_amended_trigger_awards_base (s : AppState) (auth_home auth_user tid : Nat)
    (now : Int) (t : QuestTemplate) (u : User)
    (ht : get_quest_template s tid = some t) (hhome : t.home_id = auth_home)
    (hu : get_user s auth_user = some u)
    (hwf : ∀ q ∈ s.quests, q.id < s.next_quest_id) :
    ((trigger_quest s auth_home auth_user tid now).2
      = Except.ok ⟨t.xp_reward, t.gold_reward, (calculate_level (u.xp + t.xp_reward) : Int),
          u.xp + t.xp_reward, u.gold_balance + t.gold_reward⟩)
  ∧ (get_user (trigger_quest s auth_home auth_user tid now).1 auth_user
      = some { u with xp := u.xp + t.xp_reward, level := (calculate_level (u.xp + t.xp_reward) : Int), gold_balance := u.gold_balance + t.gold_reward })
  ∧ (∃ q', get_quest (trigger_quest s auth_home auth_user tid now).1 s.next_quest_id = some q'
      ∧ q'.completed = true ∧ q'.xp_reward = t.xp_reward ∧ q'.gold_reward = t.gold_reward
      ∧ q'.quest_template_id = some t.id ∧ q'.user_id = auth_user) := by
  have hu' : s.users.find? (fun x => x.id == auth_user) = some u := hu
  have hpredu : (u.id == auth_user) = true :=
    @List.find?_some User (fun x => x.id == auth_user) u s.users hu'
  simp only [trigger_quest, ht]
  rw [if_neg (by simp [hhome])]
  set Qn := newQuestFromTemplate auth_home auth_user none t now s.next_quest_id with hQn
  have hc2 : (create_quest_crud s auth_home auth_user none t now).2 = Qn := rfl
  have hc1 : (create_quest_crud s auth_home auth_user none t now).1
      = { s with quests := s.quests ++ [Qn], next_quest_id := s.next_quest_id + 1 } := rfl
  rw [hc1, hc2]
  have hpre : s.quests.find? (fun q => q.id == s.next_quest_id) = none :=
    List.find?_eq_none.mpr (fun q hq => by
      have := hwf q hq
      simp only [beq_iff_eq]
      omega)
  set Qc := ({ Qn with completed := true, completed_at := some now } : Quest) with hQc
  set u1 := ({ u with xp := u.xp + Qn.xp_reward, level := (calculate_level (u.xp + Qn.xp_reward) : Int) } : User) with hu1def
  set u2 := ({ u1 with gold_balance := u1.gold_balance + Qn.gold_reward } : User) with hu2def
  have hcomp : complete_quest_crud
        { s with quests := s.quests ++ [Qn], next_quest_id := s.next_quest_id + 1 }
        Qn.id (some Qn.xp_reward) (some Qn.gold_reward) now
      = ({ s with quests := updateQuestList (s.quests ++ [Qn]) s.next_quest_id (fun _ => Qc), next_quest_id := s.next_quest_id + 1 }, some Qc) := by
    have hfq : get_quest
        { s with quests := s.quests ++ [Qn], next_quest_id := s.next_quest_id + 1 }
        Qn.id = some Qn := by
      show (s.quests ++ [Qn]).find? (fun q => q.id == Qn.id) = some Qn
      rw [show Qn.id = s.next_quest_id from rfl]
      rw [find?_append_of_none _ _ _ hpre, List.find?_cons]
      simp [show Qn.id = s.next_quest_id from rfl]
    rw [complete_quest_crud, hfq]
    rfl
  rw [hcomp]
  dsimp only
  have hu2 : get_user
      { s with quests := updateQuestList (s.quests ++ [Qn]) s.next_quest_id (fun _ => Qc), next_quest_id := s.next_quest_id + 1 }
      auth_user = some u := hu
  rw [add_xp, hu2]
  dsimp only
  have hu3 : get_user
      { s with quests := updateQuestList (s.quests ++ [Qn]) s.next_quest_id (fun _ => Qc), next_quest_id := s.next_quest_id + 1, users := updateUserList s.users auth_user (fun _ => u1) }
      auth_user = some u1 := by
    rw [get_user]
    show (updateUserList s.users auth_user _).find? _ = _
    rw [find?_updateUserList s.users auth_user (fun _ => u1) (fun x _ => hpredu), hu']
    rfl
  rw [add_gold, hu3]
  dsimp only
  refine ⟨rfl, ?_, ?_⟩
  · rw [get_user]
    show (updateUserList (updateUserList s.users auth_user _) auth_user _).find? _ = _
    rw [find?_updateUserList (updateUserList s.users auth_user (fun _ => u1)) auth_user
        (fun _ => u2) (fun x _ => hpredu),
      find?_updateUserList s.users auth_user (fun _ => u1) (fun x _ => hpredu), hu']
    rfl
  · refine ⟨Qc, ?_, rfl, rfl, rfl, rfl, rfl⟩
    rw [get_quest]
    show (updateQuestList (s.quests ++ [Qn]) s.next_quest_id _).find? _ = _
    rw [find?_updateQuestList (s.quests ++ [Qn]) s.next_quest_id (fun _ => Qc)
        (fun q h => by simp [show Qn.id = s.next_quest_id from rfl]),
      find?_append_of_none _ _ _ hpre, List.find?_cons]
    simp [show Qn.id = s.next_quest_id from rfl]

/-- C3 amended witness: the trigger route on the fixture state awards exactly
the base template rewards. -/
theorem C3_witness :
    (trigger_quest csC3 1 1 1 500).2
      = Except.ok ⟨tmplC3.xp_reward, tmplC3.gold_reward,
          (calculate_level (userC3.xp + tmplC3.xp_reward) : Int),
          userC3.xp + tmplC3.xp_reward, userC3.gold_balance + tmplC3.gold_reward⟩ :=
  (C3_amended_trigger_awards_base csC3 1 1 1 500 tmplC3 userC3 (by decide) (by decide)
    (by decide) (by decide)).1

/-- C4: the daily bounty selector is idempotent per (household, user, local
day) — once a call returns a decision, any later call for the same day
returns the identical decision and the identical state; candidates are
exactly the user's not-completed quests at least 48 hours old; zero
candidates persist a `none_eligible` decision with no quest; a sole
candidate equal to yesterday's assigned pick is assigned again; and with
more than one candidate, yesterday's assigned pick is never selected. -/
theorem C4_daily_bounty_selector :
    (∀ (s : AppState) (home_id user_id : Nat) (today nowMin : Int) (pick : Nat)
        (nowMin' : Int) (pick' : Nat) (d : DailyBounty),
      (get_or_create_today_bounty s home_id user_id today nowMin pick).2 = Except.ok d →
      get_or_create_today_bounty (get_or_create_today_bounty s home_id user_id today nowMin pick).1
          home_id user_id today nowMin' pick'
        = ((get_or_create_today_bounty s home_id user_id today nowMin pick).1, Except.ok d))
  ∧ (∀ (s : AppState) (home_id user_id : Nat) (nowMin : Int) (q : Quest),
      q ∈ get_eligible_active_quests s home_id user_id nowMin ↔
        q ∈ s.quests ∧ q.home_id = home_id ∧ q.user_id = user_id ∧ q.completed = false
          ∧ q.created_at + 48 * 60 ≤ nowMin)
  ∧ (∀ (s : AppState) (home_id user_id : Nat) (today nowMin : Int) (pick : Nat),
      get_bounty_for_date s home_id user_id today = none →
      get_eligible_active_quests s home_id user_id nowMin = [] →
      (get_or_create_today_bounty s home_id user_id today nowMin pick).2
        = Except.ok ⟨s.next_bounty_id, home_id, user_id, none, today, "none_eligible", nowMin⟩)
  ∧ (∀ (s : AppState) (home_id user_id : Nat) (today nowMin : Int) (pick : Nat)
        (q : Quest) (yd : DailyBounty),
      get_bounty_for_date s home_id user_id today = none →
      get_eligible_active_quests s home_id user_id nowMin = [q] →
      get_bounty_for_date s home_id user_id (today - 1) = some yd →
      yd.status = "assigned" → yd.quest_id = some q.id →
      (get_or_create_today_bounty s home_id user_id today nowMin pick).2
        = Except.ok ⟨s.next_bounty_id, home_id, user_id, some q.id, today, "assigned", nowMin⟩)
  ∧ (∀ (s : AppState) (home_id user_id : Nat) (today nowMin : Int) (pick : Nat)
        (yd : DailyBounty) (qy : Nat) (d : DailyBounty),
      get_bounty_for_date s home_id user_id today = none →
      1 < (get_eligible_active_quests s home_id user_id nowMin).length →
      get_bounty_for_date s home_id user_id (today - 1) = some yd →
      yd.status = "assigned" → yd.quest_id = some qy →
      qy ∈ (get_eligible_active_quests s home_id user_id nowMin).map (fun q => q.id) →
      (get_or_create_today_bounty s home_id user_id today nowMin pick).2 = Except.ok d →
      d.quest_id ≠ some qy) := by
  refine ⟨?_, ?_, ?_, ?_, ?_⟩
  · intro s home_id user_id today nowMin pick nowMin' pick' d hok
    have hlock := getOrCreate_locks s home_id user_id today nowMin pick d hok
    rw [get_or_create_today_bounty, hlock]
  · intro s home_id user_id nowMin q
    rw [get_eligible_active_quests, List.mem_filter]
    constructor
    · rintro ⟨hmem, hcond⟩
      simp only [Bool.and_eq_true, beq_iff_eq, decide_eq_true_eq,
        MIN_BOUNTY_AGE_HOURS] at hcond
      exact ⟨hmem, hcond.1.1.1, hcond.1.1.2, hcond.1.2, by omega⟩
    · rintro ⟨hmem, h1, h2, h3, h4⟩
      refine ⟨hmem, ?_⟩
      simp only [Bool.and_eq_true, beq_iff_eq, decide_eq_true_eq, MIN_BOUNTY_AGE_HOURS]
      exact ⟨⟨⟨h1, h2⟩, h3⟩, by omega⟩
  · intro s home_id user_id today nowMin pick hex hel
    rw [get_or_create_today_bounty, hex, hel]
    rfl
  · intro s home_id user_id today nowMin pick q yd hex hel hyd hst hqid
    rw [get_or_create_today_bounty, hex, hel]
    dsimp only
    rw [show ([q] : List Quest).isEmpty = false from rfl]
    simp only [Bool.false_eq_true, if_false]
    rw [show anti_repeat_filter [q] (get_bounty_for_date s home_id user_id (today - 1))
          = [q] from by rw [hyd]; simp [anti_repeat_filter, hqid]]
    simp [create_decision, Nat.mod_one]
  · intro s home_id user_id today nowMin pick yd qy d hex hlen hyd hst hqid hmem hok
    rw [get_or_create_today_bounty, hex] at hok
    rw [if_neg (by
      intro hemp
      rw [List.isEmpty_iff] at hemp
      rw [hemp] at hlen
      simp at hlen)] at hok
    have hfl : anti_repeat_filter (get_eligible_active_quests s home_id user_id nowMin)
        (get_bounty_for_date s home_id user_id (today - 1))
        = (get_eligible_active_quests s home_id user_id nowMin).filter (fun q => q.id != qy) := by
      rw [hyd]
      simp only [anti_repeat_filter, hqid]
      rw [if_pos (by
        refine Bool.and_eq_true _ _ |>.mpr ⟨Bool.and_eq_true _ _ |>.mpr ⟨?_, ?_⟩, ?_⟩
        · simpa [gt_iff_lt] using hlen
        · simp [hst]
        · simpa using hmem)]
    rw [hfl] at hok
    simp only [create_decision] at hok
    split at hok
    · simp at hok
    · next chosen heq =>
      cases hok
      have hchosen := List.get?_mem heq
      have hne : (chosen.id != qy) = true := (List.mem_filter.mp hchosen).2
      simp only [ne_eq, Option.some.injEq]
      intro hcontra
      rw [hcontra] at hne
      simp at hne

/-- C4 witness: the four guarded behaviours on concrete fixture states —
lock-in across a repeated call, the empty-candidate decision, the sole
repeated candidate, and the anti-repeat pick. -/
theorem C4_witness :
    (get_or_create_today_bounty (get_or_create_today_bounty csC4i 1 1 100 10000 0).1
        1 1 100 20000 7
      = ((get_or_create_today_bounty csC4i 1 1 100 10000 0).1,
         Except.ok ⟨1, 1, 1, some 1, 100, "assigned", 10000⟩))
  ∧ ((get_or_create_today_bounty csC4ii 1 1 100 10000 0).2
      = Except.ok ⟨1, 1, 1, none, 100, "none_eligible", 10000⟩)
  ∧ ((get_or_create_today_bounty csC4iii 1 1 100 10000 0).2
      = Except.ok ⟨2, 1, 1, some 1, 100, "assigned", 10000⟩)
  ∧ ((⟨2, 1, 1, some 2, 100, "assigned", 10000⟩ : DailyBounty).quest_id ≠ some 1) :=
  ⟨C4_daily_bounty_selector.1 csC4i 1 1 100 10000 0 20000 7 _ (by decide),
   C4_daily_bounty_selector.2.2.1 csC4ii 1 1 100 10000 0 (by decide) (by decide),
   C4_daily_bounty_selector.2.2.2.1 csC4iii 1 1 100 10000 0 questC4a ydC4
     (by decide) (by decide) (by decide) (by decide) (by decide),
   C4_daily_bounty_selector.2.2.2.2 csC4iv 1 1 100 10000 0 ydC4 1 _
     (by decide) (by decide) (by decide) (by decide) (by decide) (by decide) (by decide)⟩

/-- C1: the spec says the bounty stage doubles XP and gold exactly when the
completed quest instance is the acting user's locked daily-bounty pick for
today with status assigned, and multiplies by 1 otherwise.  The code cannot
perform this stage: `routes/quest.py` line 268 calls the three-parameter crud
`get_today_bounty(db, home_id, user_id)` with two arguments, so every
completion request that reaches the bounty stage raises `TypeError` and no
rewards are awarded — here evaluated on a state where the quest is precisely
the user's assigned pick for today. -/
theorem C1_completion_bounty_stage_crashes :
    complete_quest_route csC1 1 1 738000
      = (csC1, Except.error (ApiError.typeError "get_today_bounty missing 1 required positional argument"))
    ∧ bountyC1.quest_id = some questC1.id ∧ bountyC1.status = "assigned"
    ∧ questC1.completed = false := by
  refine ⟨by decide, by decide, by decide, by decide⟩

/-- C2: with no active shield the corruption debuff equals
`1 - min(corrupted_count * 0.05, 0.50)` over the count of active corrupted
quests of the household; with an active shield it is exactly 1 regardless of
the count; the final XP and gold are floors of the staged products; and the
concrete instance base (50, 25) with one active corrupted quest, no shield,
no bounty, no boost yields (47, 23). -/
theorem C2_debuff_and_floor_pipeline :
    (∀ (s : AppState) (home_id : Nat) (u : User) (now : Int), shieldActive u now = false →
      calculate_corruption_debuff s home_id u now
        = 1 - min ((corrupted_count s home_id : ℚ) * (5 / 100)) (50 / 100))
  ∧ (∀ (s : AppState) (home_id : Nat) (u : User) (now : Int), shieldActive u now = true →
      calculate_corruption_debuff s home_id u now = 1)
  ∧ (∀ (base_xp base_gold : Int) (debuff : ℚ) (b boost : Bool),
      0 ≤ base_xp → 0 ≤ base_gold → 0 ≤ debuff →
      completionRewardMath base_xp base_gold debuff b boost
        = (⌊(base_xp : ℚ) * debuff * (if b then 2 else 1) * (if boost then 2 else 1)⌋,
           ⌊(base_gold : ℚ) * debuff * (if b then 2 else 1)⌋))
  ∧ (corrupted_count csC2 1 = 1 ∧ shieldActive userC2 0 = false
      ∧ completionRewardMath 50 25 (calculate_corruption_debuff csC2 1 userC2 0) false false
        = (47, 23)) := by
  refine ⟨?_, ?_, ?_, ?_, ?_, ?_⟩
  · intro s home_id u now h
    rw [calculate_corruption_debuff, if_neg (by simp [h])]
    rw [show min ((corrupted_count s home_id : ℚ) * 5) 50 / 100
          = min ((corrupted_count s home_id : ℚ) * 5 / 100) (50 / 100) from
        (min_div_div_right (by norm_num) _ _).symm, mul_div_assoc]
  · intro s home_id u now h
    rw [calculate_corruption_debuff, if_pos (by simp [h])]
  · intro base_xp base_gold debuff b boost hx hg hd
    have hx' : (0 : ℚ) ≤ (base_xp : ℚ) := by exact_mod_cast hx
    have hg' : (0 : ℚ) ≤ (base_gold : ℚ) := by exact_mod_cast hg
    have hb : (0 : ℚ) ≤ (if b then (2 : ℚ) else 1) := by split <;> norm_num
    have hboost : (0 : ℚ) ≤ (if boost then (2 : ℚ) else 1) := by split <;> norm_num
    rw [completionRewardMath, pyInt, pyInt,
      if_pos (mul_nonneg (mul_nonneg (mul_nonneg hx' hd) hb) hboost),
      if_pos (mul_nonneg (mul_nonneg hg' hd) hb)]
  · decide
  · decide
  · have hdeb : calculate_corruption_debuff csC2 1 userC2 0 = 19 / 20 := by
      rw [calculate_corruption_debuff, if_neg (by decide),
        show corrupted_count csC2 1 = 1 from by decide]
      rw [show ((1 : ℕ) : ℚ) = 1 from by norm_num,
        show min ((1 : ℚ) * 5) 50 = 5 from by rw [one_mul]; exact min_eq_left (by norm_num)]
      norm_num
    rw [hdeb, completionRewardMath]
    simp only [if_false, Bool.false_eq_true, mul_one]
    rw [pyInt, pyInt, if_pos (by norm_num), if_pos (by norm_num)]
    norm_num

/-- C2 witness: each guarded part of the theorem applied to a concrete
input. -/
theorem C2_witness :
    calculate_corruption_debuff csC2 1 userC2 0
      = 1 - min ((corrupted_count csC2 1 : ℚ) * (5 / 100)) (50 / 100)
  ∧ calculate_corruption_debuff csC2 1 { userC2 with active_shield_expiry := some 9 } 0 = 1
  ∧ completionRewardMath 50 25 (19 / 20) false false
      = (⌊(50 : ℚ) * (19 / 20) * (if false then 2 else 1) * (if false then 2 else 1)⌋,
         ⌊(25 : ℚ) * (19 / 20) * (if false then 2 else 1)⌋) :=
  ⟨C2_debuff_and_floor_pipeline.1 csC2 1 userC2 0 (by decide),
   C2_debuff_and_floor_pipeline.2.1 csC2 1 { userC2 with active_shield_expiry := some 9 } 0 (by decide),
   C2_debuff_and_floor_pipeline.2.2.1 50 25 (19 / 20) false false (by norm_num) (by norm_num) (by norm_num)⟩

/-- Helper: the per-user creation loop only appends quests, and everything it
appends carries the template id of the template being generated. -/
theorem sweepCreate_appends (home_id : Nat) (t : QuestTemplate) (now : PDateTime) :
    ∀ (users : List User) (s : AppState),
      ∃ tail, (sweepCreateForUsers home_id t now s users).quests = s.quests ++ tail
        ∧ ∀ q ∈ tail, q.quest_template_id = some t.id := by
  intro users
  induction users with
  | nil =>
    intro s
    exact ⟨[], by rw [sweepCreateForUsers]; simp, by simp⟩
  | cons u rest ih =>
    intro s
    rw [sweepCreateForUsers]
    obtain ⟨tail, heq, hall⟩ := ih
      { s with quests := s.quests ++ [sweepNewQuest home_id t now s.next_quest_id u],
               next_quest_id := s.next_quest_id + 1 }
    refine ⟨sweepNewQuest home_id t now s.next_quest_id u :: tail, ?_, ?_⟩
    · rw [heq]
      simp
    · intro q hq
      rcases List.mem_cons.mp hq with rfl | hmem
      · rfl
      · exact hall q hmem

/-- Helper: a successful sweep step appends only instances of its template,
and appends nothing when an incomplete instance of that template exists. -/
theorem sweepStep_ok_shape (home_id : Nat) (now : PDateTime) (s : AppState) (t : QuestTemplate)
    (s' : AppState) (h : sweepStep home_id now s t = Except.ok s') :
    ∃ tail, s'.quests = s.quests ++ tail
      ∧ (∀ q ∈ tail, q.quest_template_id = some t.id)
      ∧ (tail = [] ∨ s.quests.find?
          (fun q => q.quest_template_id == some t.id && q.completed == false) = none) := by
  rw [sweepStep] at h
  split at h
  · cases h
    exact ⟨[], by simp, by simp, Or.inl rfl⟩
  · cases h
    exact ⟨[], by simp, by simp, Or.inl rfl⟩
  · split at h
    · cases h
      exact ⟨[], by simp, by simp, Or.inl rfl⟩
    · cases h
    · split at h
      · split at h
        · cases h
          exact ⟨[], by simp, by simp, Or.inl rfl⟩
        · next hfind =>
          cases h
          obtain ⟨tail, heq, hall⟩ := sweepCreate_appends home_id t now (get_home_users s home_id) s
          exact ⟨tail, heq, hall, Or.inr hfind⟩
      · cases h
        exact ⟨[], by simp, by simp, Or.inl rfl⟩

/-- Helper: across the whole template loop, no quest of a template with an
outstanding incomplete instance is created. -/
theorem sweepTemplates_no_spam (home_id : Nat) (now : PDateTime) (tid : Nat) :
    ∀ (ts : List QuestTemplate) (s s' : AppState),
      (∃ q ∈ s.quests, q.quest_template_id = some tid ∧ q.completed = false) →
      sweepTemplates home_id now s ts = Except.ok s' →
      ∀ q' ∈ s'.quests, q'.quest_template_id = some tid → q' ∈ s.quests := by
  intro ts
  induction ts with
  | nil =>
    intro s s' _ h q' hq' _
    rw [sweepTemplates] at h
    cases h
    exact hq'
  | cons t rest ih =>
    intro s s' hex h
    rw [sweepTemplates] at h
    rcases hstep : sweepStep home_id now s t with e | s₁
    · rw [hstep] at h
      cases h
    · rw [hstep] at h
      obtain ⟨tail, hq, hall, hdisj⟩ := sweepStep_ok_shape home_id now s t s₁ hstep
      obtain ⟨q₀, hq₀mem, hq₀t, hq₀c⟩ := hex
      have hex₁ : ∃ q ∈ s₁.quests, q.quest_template_id = some tid ∧ q.completed = false :=
        ⟨q₀, by rw [hq]; exact List.mem_append_left _ hq₀mem, hq₀t, hq₀c⟩
      intro q' hq' ht'
      have hmem₁ := ih s₁ s' hex₁ h q' hq' ht'
      rw [hq] at hmem₁
      rcases List.mem_append.mp hmem₁ with h1 | h2
      · exact h1
      · have htid : t.id = tid := by
          have := hall q' h2
          rw [this] at ht'
          exact Option.some.inj ht'
        rcases hdisj with htail | hnone
        · rw [htail] at h2
          cases h2
        · exfalso
          apply List.find?_eq_none.mp hnone q₀ hq₀mem
          simp [hq₀t, hq₀c, htid]

/-- C6: if an incomplete instance of a recurring template already exists, a
generation sweep creates zero additional instances of that template — every
instance of the template present after the sweep was already present before
it, so repeated sweeps never stack a second active instance. -/
theorem C6_generation_sweep_no_spam (s : AppState) (home_id : Nat) (now : PDateTime) (tid : Nat)
    (hexists : ∃ q ∈ s.quests, q.quest_template_id = some tid ∧ q.completed = false)
    (s' : AppState) (hok : generate_due_quests s home_id now = Except.ok s') :
    ∀ q' ∈ s'.quests, q'.quest_template_id = some tid → q' ∈ s.quests :=
  sweepTemplates_no_spam home_id now tid _ s s' hexists hok

/-- C6 witness: on the fixture state the due daily template is skipped
because its incomplete instance is outstanding, and the sweep leaves the
state untouched. -/
theorem C6_witness : questC6 ∈ csC6.quests :=
  C6_generation_sweep_no_spam csC6 1 nowC6 1 ⟨questC6, by decide, by decide, by decide⟩
    csC6 (by decide) questC6 (by decide) (by decide)

/-- C7: the corruption sweep returns exactly the quests that are not
completed, have a due date strictly before now, and are not already
corrupted, each with `quest_type` set to corrupted and `corrupted_at` set to
now; re-running it immediately returns an empty list and leaves the state
untouched; and a completed quest is carried over unchanged whatever its due
date. -/
theorem C7_corruption_sweep_exact_idempotent (s : AppState) (now : Int) :
    ((check_and_corrupt_overdue_quests s now).2
      = (s.quests.filter (fun q => !q.completed
            && (match q.due_date with | some d => decide (d < now) | none => false)
            && q.quest_type != "corrupted")).map
          (fun q => { q with quest_type := "corrupted", corrupted_at := some now }))
  ∧ check_and_corrupt_overdue_quests (check_and_corrupt_overdue_quests s now).1 now
      = ((check_and_corrupt_overdue_quests s now).1, ([] : List Quest))
  ∧ (∀ q ∈ s.quests, q.completed = true →
      q ∈ (check_and_corrupt_overdue_quests s now).1.quests) := by
  have hpred : ∀ q : Quest, overduePred now (corruptQuest now q) = false := by
    intro q
    simp [overduePred, corruptQuest]
  have hall : ∀ q' ∈ (check_and_corrupt_overdue_quests s now).1.quests,
      overduePred now q' = false := by
    intro q' hq'
    rw [check_and_corrupt_overdue_quests] at hq'
    rcases List.mem_map.mp hq' with ⟨q, _, rfl⟩
    by_cases h : overduePred now q = true
    · rw [if_pos h]
      exact hpred q
    · rw [if_neg h]
      exact Bool.not_eq_true _ |>.mp h
  refine ⟨rfl, ?_, ?_⟩
  · have hfil : (check_and_corrupt_overdue_quests s now).1.quests.filter (overduePred now)
        = [] :=
      List.filter_eq_nil_iff.mpr (fun q hq => by simp [hall q hq])
    have hmap : (check_and_corrupt_overdue_quests s now).1.quests.map
        (fun q => if overduePred now q then corruptQuest now q else q)
        = (check_and_corrupt_overdue_quests s now).1.quests := by
      refine (List.map_congr_left (fun q hq => ?_)).trans (List.map_id _)
      rw [if_neg (by simp [hall q hq])]
      rfl
    conv_lhs => rw [check_and_corrupt_overdue_quests]
    rw [hfil, hmap]
    rfl
  · intro q hq hc
    have hp : overduePred now q = false := by simp [overduePred, hc]
    have hmem := List.mem_map_of_mem
      (fun q => if overduePred now q then corruptQuest now q else q) hq
    rw [check_and_corrupt_overdue_quests]
    simpa [hp] using hmem

/-- C7 witness: the sweep at minute 100 corrupts the overdue fixture quest,
and the completed overdue fixture quest is carried over unchanged. -/
theorem C7_witness :
    questC7done ∈ (check_and_corrupt_overdue_quests csC7 100).1.quests :=
  (C7_corruption_sweep_exact_idempotent csC7 100).2.2 questC7done (by decide) (by decide)

/-- C8 counterexample: the claim says a completed quest admits no further
mutation of `quest_type` through any exposed operation, yet the quest-update
route happily flips `quest_type` of the completed fixture quest. -/
theorem C8_counterexample :
    questC8.completed = true
  ∧ (update_quest_route csC8 1 1 updC8).1.quests = [{ questC8 with quest_type := "corrupted" }]
  ∧ (update_quest_route csC8 1 1 updC8).2 = Except.ok { questC8 with quest_type := "corrupted" }
  ∧ questC8.quest_type ≠ "corrupted" := by
  refine ⟨by decide, by decide, by decide, by decide⟩

/-- C8 amended: the update schema exposes only `completed`, `quest_type` and
`due_date`, so no quest update — on a completed quest or otherwise — can
change `xp_reward` or `gold_reward`; `quest_type`, however, remains mutable
after completion (see the counterexample). -/
theorem C8_amended_update_preserves_rewards (s : AppState) (auth_home quest_id : Nat)
    (upd : QuestUpdate) :
    ∀ q' ∈ (update_quest_route s auth_home quest_id upd).1.quests,
      ∃ q ∈ s.quests, q'.id = q.id ∧ q'.xp_reward = q.xp_reward
        ∧ q'.gold_reward = q.gold_reward := by
  intro q' hq'
  rw [update_quest_route] at hq'
  rcases hfind : get_quest s quest_id with _ | q0
  · rw [hfind] at hq'
    exact ⟨q', hq', rfl, rfl, rfl⟩
  · rw [hfind] at hq'
    dsimp only at hq'
    by_cases hhome : q0.home_id ≠ auth_home
    · rw [if_pos hhome] at hq'
      exact ⟨q', hq', rfl, rfl, rfl⟩
    · rw [if_neg hhome, update_quest, hfind] at hq'
      simp only [updateQuestList] at hq'
      rcases List.mem_map.mp hq' with ⟨q, hqmem, rfl⟩
      by_cases hid : (q.id == quest_id) = true
      · have hq0 : q0 ∈ s.quests := List.mem_of_find?_eq_some hfind
        rw [if_pos hid]
        exact ⟨q0, hq0, rfl, rfl, rfl⟩
      · rw [if_neg hid]
        exact ⟨q, hqmem, rfl, rfl, rfl⟩

/-- C8 amended witness: the update that flips `quest_type` of the completed
fixture quest still leaves rewards traceable to the original row. -/
theorem C8_amended_witness :
    ∃ q ∈ csC8.quests,
      ({ questC8 with quest_type := "corrupted" } : Quest).id = q.id
      ∧ ({ questC8 with quest_type := "corrupted" } : Quest).xp_reward = q.xp_reward
      ∧ ({ questC8 with quest_type := "corrupted" } : Quest).gold_reward = q.gold_reward :=
  C8_amended_update_preserves_rewards csC8 1 1 updC8
    { questC8 with quest_type := "corrupted" } (by decide)

/-- C9: the spec says the shared gold primitive rejects any delta that would
drive the balance below zero, leaving the balance unchanged.  `add_gold`
applies the delta unconditionally: on a balance of 10 a delta of -20 commits
a balance of -10 and reports success. -/
theorem C9_add_gold_allows_negative_balance :
    (add_gold csC9 1 (-20)).2 = some { userC9 with gold_balance := -10 }
  ∧ get_user (add_gold csC9 1 (-20)).1 1 = some { userC9 with gold_balance := -10 } := by
  refine ⟨by decide, by decide⟩

/-- C10: completing an already completed quest fails with the
already-completed conflict, and the state — hence every user stat — is
exactly the input state. -/
theorem C10_second_completion_conflict (s : AppState) (auth_home quest_id : Nat) (now : Int)
    (q : Quest) (hq : get_quest s quest_id = some q) (hhome : q.home_id = auth_home)
    (hc : q.completed = true) :
    complete_quest_route s auth_home quest_id now
      = (s, Except.error (ApiError.http 400 "QUEST_ALREADY_COMPLETED")) := by
  simp [complete_quest_route, hq, hhome, hc]

/-- C10 witness: the conflict on the completed fixture quest. -/
theorem C10_witness :
    complete_quest_route csC10 1 1 5
      = (csC10, Except.error (ApiError.http 400 "QUEST_ALREADY_COMPLETED")) :=
  C10_second_completion_conflict csC10 1 1 5 questC10 (by decide) (by decide) (by decide)

/-- Helper: with no generation in the previous 7 days taken into account, the
weekly branch lands strictly in the future and at most 7 days ahead. -/
theorem weekly_next_bounds (now : PDateTime) (hv : ValidDate now)
    (hh : now.hour ≤ 23) (hmn : now.minute ≤ 59) :
    toMin now < toMin (withTime (addDays now (weeklyDaysAhead now).toNat) 8 0)
    ∧ toDays (withTime (addDays now (weeklyDaysAhead now).toNat) 8 0) ≤ toDays now + 7 := by
  have hw : weekday now < 7 := by simp only [weekday]; omega
  have hD : (weeklyDaysAhead now = 0 ∧ now.hour < 8)
      ∨ (1 ≤ weeklyDaysAhead now ∧ weeklyDaysAhead now ≤ 7) := by
    simp only [weeklyDaysAhead, show weekdayDayMap (pyLower "Monday") = 0 from rfl]
    repeat' split
    all_goals omega
  have hA := toDays_addDays now hv (weeklyDaysAhead now).toNat
  have e1 : toMin (withTime (addDays now (weeklyDaysAhead now).toNat) 8 0)
      = ((toDays (addDays now (weeklyDaysAhead now).toNat) : Nat) : Int) * 1440 + 480 := by
    show ((toDays (addDays now (weeklyDaysAhead now).toNat) : Nat) : Int) * 1440
        + ((8 : Nat) : Int) * 60 + ((0 : Nat) : Int) = _
    norm_num
  have e2 : toMin now
      = ((toDays now : Nat) : Int) * 1440 + ((now.hour : Nat) : Int) * 60
        + ((now.minute : Nat) : Int) := rfl
  have e3 : toDays (withTime (addDays now (weeklyDaysAhead now).toNat) 8 0)
      = toDays (addDays now (weeklyDaysAhead now).toNat) := rfl
  constructor
  · rw [e2, e1, hA.1]
    rcases hD with ⟨h0, h8⟩ | ⟨h1, h7⟩ <;> omega
  · rw [e3, hA.1]
    rcases hD with ⟨h0, h8⟩ | ⟨h1, h7⟩ <;> omega

/-- C5 counterexample: two closed runs of the calculator refute the claim.
Weekly: on Wednesday Jan 10 of year 1 (weekday 2, so the scheduled Monday
already passed this week) with the last generation the day before, the
calculator returns Monday Jan 22 at 08:00 — 12 days out, outside the claimed
1-7 day window, because the already-generated-this-week guard adds 7 days on
top of the 5-day jump to the next Monday.  Monthly: with day=31 evaluated at
23:00 on Feb 28 of the non-leap year 1, the result is March 31, not
February 28 — the clamped February occurrence (08:00) already passed, so the
code rolls to the next month and the claimed resolution to day 28 fails
inside non-leap February. -/
theorem C5_counterexample :
    calculate_next_generation_time (some ⟨1, 1, 9, 12, 0⟩) schedWeeklyC5 ⟨1, 1, 10, 12, 0⟩
        = Except.ok ⟨1, 1, 22, 8, 0⟩
    ∧ weekday ⟨1, 1, 10, 12, 0⟩ = 2
    ∧ toDays ⟨1, 1, 22, 8, 0⟩ = toDays ⟨1, 1, 10, 12, 0⟩ + 12
    ∧ calculate_next_generation_time none schedMonthlyC5 ⟨1, 2, 28, 23, 0⟩
        = Except.ok ⟨1, 3, 31, 8, 0⟩
    ∧ isLeap 1 = false := by
  refine ⟨by decide, by decide, by decide, by decide, by decide⟩

/-- C5 (amended): the schedule calculator satisfies: (i) daily with no prior
generation and time 08:00 returns today at 08:00 for every current instant;
(ii) weekly lands strictly in the future and at most 7 days ahead provided no
generation happened within the previous 7 days (with a recent generation it
can land up to 13 days ahead, see the counterexample); (iii) monthly day=31
in a non-leap February resolves to February 28 provided the clamped
occurrence has not already passed this month (after it passes, the result
rolls into March, see the counterexample); (iv) an unknown schedule type is a
hard ValueError to the caller, never silently defaulted. -/
theorem C5_amended_schedule_calculator :
    (∀ now : PDateTime,
       calculate_next_generation_time none schedDailyC5 now = Except.ok (withTime now 8 0))
    ∧ (∀ (last : Option PDateTime) (now : PDateTime), ValidDate now →
       now.hour ≤ 23 → now.minute ≤ 59 →
       (last = none ∨ ∃ lg, last = some lg ∧ toMin lg < toMin now - 7 * 1440) →
       ∃ r, calculate_next_generation_time last schedWeeklyC5 now = Except.ok r
         ∧ toMin now < toMin r ∧ toDays r ≤ toDays now + 7)
    ∧ (∀ y d hr mi : Nat, isLeap y = false →
       toMin ⟨y, 2, d, hr, mi⟩ < toMin ⟨y, 2, 28, 8, 0⟩ →
       calculate_next_generation_time none schedMonthlyC5 ⟨y, 2, d, hr, mi⟩
         = Except.ok ⟨y, 2, 28, 8, 0⟩)
    ∧ (∀ (last : Option PDateTime) (sched : Schedule) (now : PDateTime),
       sched.type ≠ some "daily" → sched.type ≠ some "weekly" → sched.type ≠ some "monthly" →
       calculate_next_generation_time last sched now
         = Except.error (ApiError.valueError "Unknown schedule type")) := by
  refine ⟨?_, ?_, ?_, ?_⟩
  · intro now
    rfl
  · intro last now hv hh hmn hlast
    rcases hlast with rfl | ⟨lg, rfl, hlg⟩
    · exact ⟨withTime (addDays now (weeklyDaysAhead now).toNat) 8 0, rfl,
        (weekly_next_bounds now hv hh hmn).1, (weekly_next_bounds now hv hh hmn).2⟩
    · have key2 : calculate_next_generation_time (some lg) schedWeeklyC5 now
          = Except.ok (if toMin now - 7 * 1440 ≤ toMin lg then
              (if toMin (withTime (addDays now (weeklyDaysAhead now).toNat) 8 0) - toMin lg
                  < 7 * 1440 then
                addDays (withTime (addDays now (weeklyDaysAhead now).toNat) 8 0) 7
              else withTime (addDays now (weeklyDaysAhead now).toNat) 8 0)
            else withTime (addDays now (weeklyDaysAhead now).toNat) 8 0) := rfl
      have hcond : ¬ (toMin now - 7 * 1440 ≤ toMin lg) := by omega
      rw [key2, if_neg hcond]
      exact ⟨withTime (addDays now (weeklyDaysAhead now).toNat) 8 0, rfl,
        (weekly_next_bounds now hv hh hmn).1, (weekly_next_bounds now hv hh hmn).2⟩
  · intro y d hr mi hleap hlt
    have hdim : daysInMonth y 2 = 28 := by simp [daysInMonth, hleap]
    have htarget : setDayClamped ⟨y, 2, 1, 8, 0⟩ 31 = ⟨y, 2, 28, 8, 0⟩ := by
      simp only [setDayClamped]
      rw [hdim]
      norm_num
    have key3 : calculate_next_generation_time none schedMonthlyC5 ⟨y, 2, d, hr, mi⟩
        = (if toMin (setDayClamped ⟨y, 2, 1, 8, 0⟩ 31) ≤ toMin ⟨y, 2, d, hr, mi⟩ then
            (if (setDayClamped ⟨y, 2, 1, 8, 0⟩ 31).day ≤ daysInMonth y 3 then
              Except.ok (setDayClamped { setDayClamped ⟨y, 2, 1, 8, 0⟩ 31 with month := 3 } 31)
            else Except.error (ApiError.valueError "day is out of range for month"))
          else Except.ok (setDayClamped ⟨y, 2, 1, 8, 0⟩ 31)) := rfl
    rw [key3, htarget, if_neg (not_le.mpr hlt)]
  · intro last sched now h1 h2 h3
    simp only [calculate_next_generation_time]
    rw [if_neg h1, if_neg h2, if_neg h3]

/-- C5 witness: the four amended conjuncts at concrete instants — daily late
in the evening still returns the same day at 08:00; weekly on Monday noon of
year 1 with no prior generation lands in the future within 7 days; monthly
day=31 on Feb 10 of the non-leap year 1 resolves to Feb 28; an hourly type is
rejected. -/
theorem C5_witness :
    calculate_next_generation_time none schedDailyC5 ⟨1, 1, 10, 22, 37⟩
        = Except.ok ⟨1, 1, 10, 8, 0⟩
    ∧ (∃ r, calculate_next_generation_time none schedWeeklyC5 ⟨1, 1, 15, 12, 0⟩ = Except.ok r
        ∧ toMin ⟨1, 1, 15, 12, 0⟩ < toMin r ∧ toDays r ≤ toDays ⟨1, 1, 15, 12, 0⟩ + 7)
    ∧ calculate_next_generation_time none schedMonthlyC5 ⟨1, 2, 10, 9, 0⟩
        = Except.ok ⟨1, 2, 28, 8, 0⟩
    ∧ calculate_next_generation_time none schedHourlyC5 ⟨1, 1, 10, 9, 0⟩
        = Except.error (ApiError.valueError "Unknown schedule type") :=
  ⟨C5_amended_schedule_calculator.1 ⟨1, 1, 10, 22, 37⟩,
   C5_amended_schedule_calculator.2.1 none ⟨1, 1, 15, 12, 0⟩ (by decide) (by decide) (by decide)
     (Or.inl rfl),
   C5_amended_schedule_calculator.2.2.1 1 10 9 0 (by decide) (by decide),
   C5_amended_schedule_calculator.2.2.2 none schedHourlyC5 ⟨1, 1, 10, 9, 0⟩ (by decide)
     (by decide) (by decide)⟩

end Majordomo
